import Mathlib

/-!
Verification development for a Go HTTP round-robin load balancer.

The repository has two variants of the balancer:
* the flat shape (`lb-notg/lb.go`): one pool of servers with a persistent
  round-robin `index`;
* the multi-group shape (`unnamed/part_000`): a list of target groups, each
  binding an exact URI path to a list of servers.

The network is modelled by an oracle `Net` giving, for each probed URL and
each attempt number, the outcome of the HTTP GET: `none` is a transport
error, `some c` is a completed response with status code `c`.  The reverse
proxy and `http.Error` are external collaborators: a request outcome is
modelled by `Response`, either a forward to a chosen server with the
rewritten path, or the error response with its body and status code.
-/

/-- The relevant part of Go's `url.URL`: the `Host` segment and the result
of `String()` (called `full` here since `String` is taken in Lean). -/
structure URLData where
  Host : String
  full : String
  deriving DecidableEq

/-- `Server` from both source files: a parsed URL and a health-check path. -/
structure Server where
  URL : URLData
  healthCheckPath : String
  deriving DecidableEq

/-- Network oracle: probed URL → attempt number → outcome of the GET
(`none` = transport error, `some c` = response with status code `c`). -/
def Net : Type := String → Nat → Option Nat

/-- Externally visible outcome of handling one request: forwarded to a
server with the rewritten request path, or an error response written by the
`http.Error` collaborator (body, status), or a Go runtime panic from an
out-of-range index. -/
inductive Response where
  | forwarded (server : Server) (rewrittenPath : String)
  | error (body : String) (status : Nat)
  | outOfRange
  deriving DecidableEq

/-- One health-check attempt succeeds iff the GET completed without a
transport error and the status code is exactly 200 (the negation of Go's
`err != nil || resp.StatusCode != http.StatusOK`). -/
def attemptOk (outcome : Option Nat) : Bool :=
  match outcome with
  | some status => status == 200
  | none => false

/-- The retry loop of `isServerHealthy`: `for retry := 0; retry < maxRetries;
retry++`, returning true on the first successful attempt and false when the
remaining retry budget is exhausted. -/
def tryAttempts (outcome : Nat → Option Nat) : Nat → Nat → Bool
  | _, 0 => false
  | retry, rem + 1 =>
    if attemptOk (outcome retry) then true
    else tryAttempts outcome (retry + 1) rem

/-- `LoadBalancer.isServerHealthy` (identical in both source files): true
unconditionally when `healthCheckPath` is empty, otherwise up to
`maxRetries = 3` GETs to `server.URL.String() + server.healthCheckPath`. -/
def isServerHealthy (net : Net) (server : Server) : Bool :=
  if server.healthCheckPath = "" then true
  else
    tryAttempts (fun retry => net (server.URL.full ++ server.healthCheckPath) retry) 0 3

namespace Flat

/-- `LoadBalancer` of `lb-notg/lb.go`: the server list and the mutable
round-robin index (the mutex only serializes requests and is not modelled). -/
structure LoadBalancer where
  servers : List Server
  index : Nat
  deriving DecidableEq

/-- The dispatch loop of `ServeHTTP` in `lb-notg/lb.go`.  The second
argument of the recursion is the loop counter budget `len(lb.servers) - i`;
the state threaded through is `lb.index`.  Each iteration reads
`servers[index]`, advances `index := (index + 1) % len(servers)`, and
forwards to the server if healthy, rewriting the path to
`fmt.Sprintf("/%s%s", server.URL.Host, r.URL.Path)`.  After the loop,
`http.Error(w, "No healthy backend servers available", 503)`. -/
def serveLoop (healthy : Server → Bool) (servers : List Server) (reqPath : String) :
    Nat → Nat → Response × Nat
  | idx, 0 => (Response.error "No healthy backend servers available" 503, idx)
  | idx, rem + 1 =>
    match servers[idx]? with
    | none => (Response.outOfRange, idx)
    | some server =>
      let idx2 := (idx + 1) % servers.length
      if healthy server then
        (Response.forwarded server ("/" ++ server.URL.Host ++ reqPath), idx2)
      else
        serveLoop healthy servers reqPath idx2 rem

/-- `LoadBalancer.ServeHTTP` of `lb-notg/lb.go`: run the dispatch loop for
`len(lb.servers)` iterations starting at the stored index, and persist the
final index back into the balancer. -/
def ServeHTTP (net : Net) (lb : LoadBalancer) (reqPath : String) :
    Response × LoadBalancer :=
  let r := serveLoop (isServerHealthy net) lb.servers reqPath lb.index lb.servers.length
  (r.1, { servers := lb.servers, index := r.2 })

/-- The sequence of rotation candidates examined by `serveLoop`: starting at
`idx`, at most `fuel` servers at indices `idx, (idx+1) % n, ...`. -/
def rotation (servers : List Server) : Nat → Nat → List Server
  | _, 0 => []
  | idx, fuel + 1 =>
    match servers[idx]? with
    | none => []
    | some s => s :: rotation servers ((idx + 1) % servers.length) fuel

end Flat

namespace Multi

/-- `TargetGroup` of `unnamed/part_000`: an exact URI path and its servers. -/
structure TargetGroup where
  URIPath : String
  Servers : List Server
  deriving DecidableEq

/-- `LoadBalancer` of `unnamed/part_000`: just the ordered target groups
(the mutex is not modelled; there is no other field). -/
structure LoadBalancer where
  targetGroups : List TargetGroup
  deriving DecidableEq

/-- `LoadBalancer.getNextServer` of `unnamed/part_000`, verbatim: return
nil for an empty group, otherwise compute
`targetGroupIndex := len(targetGroup.Servers) % serverCount`, then
`targetGroupIndex = (targetGroupIndex + 1) % serverCount`, and return
`targetGroup.Servers[targetGroupIndex]`.  Note that nothing is mutated:
the index is a local recomputed on every call. -/
def getNextServer (targetGroup : TargetGroup) : Option Server :=
  let serverCount := targetGroup.Servers.length
  if h : serverCount = 0 then none
  else
    let targetGroupIndex := targetGroup.Servers.length % serverCount
    let targetGroupIndex2 := (targetGroupIndex + 1) % serverCount
    some (targetGroup.Servers.get ⟨targetGroupIndex2, Nat.mod_lt _ (Nat.pos_of_ne_zero h)⟩)

/-- The route loop of `ServeHTTP` in `unnamed/part_000`: iterate the target
groups in order; on an exact path match, take the group's rotation
candidate and, if it is non-nil and healthy, forward to it with the
rewritten path; otherwise continue with the next group.  After the loop,
`http.Error(w, "No healthy backend servers available", 503)`. -/
def serveGroups (healthy : Server → Bool) : List TargetGroup → String → Response
  | [], _ => Response.error "No healthy backend servers available" 503
  | tg :: rest, reqPath =>
    if reqPath = tg.URIPath then
      match getNextServer tg with
      | some server =>
        if healthy server then
          Response.forwarded server ("/" ++ server.URL.Host ++ reqPath)
        else
          serveGroups healthy rest reqPath
      | none => serveGroups healthy rest reqPath
    else
      serveGroups healthy rest reqPath

/-- `LoadBalancer.ServeHTTP` of `unnamed/part_000`.  The returned balancer
is the input unchanged: the source mutates no field of the struct. -/
def ServeHTTP (net : Net) (lb : LoadBalancer) (reqPath : String) :
    Response × LoadBalancer :=
  (serveGroups (isServerHealthy net) lb.targetGroups reqPath, lb)

/-- Whether a group's rotation candidate exists and is healthy (the guard
`server != nil && lb.isServerHealthy(server)` of the route loop). -/
def candidateHealthy (healthy : Server → Bool) (tg : TargetGroup) : Bool :=
  match getNextServer tg with
  | some s => healthy s
  | none => false

end Multi

/-- A network oracle on which every probe attempt succeeds with status 200. -/
def upNet : Net := fun _ _ => some 200

/-- A network oracle on which every probe attempt is a transport error. -/
def downNet : Net := fun _ _ => none

/-- A network oracle that succeeds only on the second attempt (index 1). -/
def secondTryNet : Net := fun _ attempt => if attempt = 1 then some 200 else none

/-- Always-healthy server a1 (empty health-check path), host a1. -/
def sA1 : Server := ⟨⟨"a1", "http://a1"⟩, ""⟩

/-- Always-healthy server b1 (empty health-check path), host b1. -/
def sB1 : Server := ⟨⟨"b1", "http://b1"⟩, ""⟩

/-- Two-server target group for path /a, both servers always healthy. -/
def tgC1 : Multi.TargetGroup := ⟨"/a", [sA1, sB1]⟩

/-- Multi-group balancer with the single group `tgC1`. -/
def lbC1 : Multi.LoadBalancer := ⟨[tgC1]⟩

/-- Always-healthy servers for a three-server group. -/
def sA7 : Server := ⟨⟨"a7", "http://a7"⟩, ""⟩

/-- Second server of the three-server group. -/
def sB7 : Server := ⟨⟨"b7", "http://b7"⟩, ""⟩

/-- Third server of the three-server group. -/
def sC7 : Server := ⟨⟨"c7", "http://c7"⟩, ""⟩

/-- Three-server target group for path /c, all servers always healthy. -/
def tgC7 : Multi.TargetGroup := ⟨"/c", [sA7, sB7, sC7]⟩

/-- Multi-group balancer with the single group `tgC7`. -/
def lbC7 : Multi.LoadBalancer := ⟨[tgC7]⟩

/-- Always-healthy first pool member (never the rotation candidate). -/
def ghC2 : Server := ⟨⟨"gh", "http://gh"⟩, ""⟩

/-- Health-checked second pool member (the perpetual rotation candidate). -/
def guC2 : Server := ⟨⟨"gu", "http://gu"⟩, "/health"⟩

/-- Group for /a whose perpetual candidate `guC2` is down on `downNet`
while `ghC2` stays healthy. -/
def tgC2 : Multi.TargetGroup := ⟨"/a", [ghC2, guC2]⟩

/-- Multi-group balancer with the single group `tgC2`. -/
def lbC2 : Multi.LoadBalancer := ⟨[tgC2]⟩

/-- Health-checked single server of the first /a group. -/
def u1 : Server := ⟨⟨"u1", "http://u1"⟩, "/health"⟩

/-- Always-healthy single server of the second /a group. -/
def w1 : Server := ⟨⟨"w1", "http://w1"⟩, ""⟩

/-- First group configured for /a; its only candidate is `u1`. -/
def tgU : Multi.TargetGroup := ⟨"/a", [u1]⟩

/-- Second group also configured for /a; its only candidate is `w1`. -/
def tgW : Multi.TargetGroup := ⟨"/a", [w1]⟩

/-- Multi-group balancer with duplicate-path groups `tgU` then `tgW`. -/
def lbC5 : Multi.LoadBalancer := ⟨[tgU, tgW]⟩

/-- First member of the first /dup group (never the candidate). -/
def d1 : Server := ⟨⟨"d1", "http://d1"⟩, ""⟩

/-- Health-checked second member of the first /dup group (the candidate). -/
def d2 : Server := ⟨⟨"d2", "http://d2"⟩, "/health"⟩

/-- Always-healthy single server of the second /dup group. -/
def e1 : Server := ⟨⟨"e1", "http://e1"⟩, ""⟩

/-- First group configured for /dup; its candidate `d2` is down on
`downNet`. -/
def tgD : Multi.TargetGroup := ⟨"/dup", [d1, d2]⟩

/-- Second group also configured for /dup; its candidate `e1` is healthy. -/
def tgE : Multi.TargetGroup := ⟨"/dup", [e1]⟩

/-- Multi-group balancer with duplicate-path groups `tgD` then `tgE`. -/
def lbC8 : Multi.LoadBalancer := ⟨[tgD, tgE]⟩

/-- Health-checked flat-pool server, down on `downNet`. -/
def wf1 : Server := ⟨⟨"wf1", "http://wf1"⟩, "/health"⟩

/-- Always-healthy flat-pool server. -/
def wf2 : Server := ⟨⟨"wf2", "http://wf2"⟩, ""⟩

/-- Flat balancer with one down and one healthy server, cursor at 0. -/
def lbW2 : Flat.LoadBalancer := ⟨[wf1, wf2], 0⟩

/-- Flat balancer whose only server is down on `downNet`. -/
def lbW4 : Flat.LoadBalancer := ⟨[wf1], 0⟩

/-- Always-healthy flat-pool server for the rewrite witness. -/
def sW9 : Server := ⟨⟨"w9", "http://w9"⟩, ""⟩

/-- Flat balancer with the single server `sW9`, cursor at 0. -/
def lbW9 : Flat.LoadBalancer := ⟨[sW9], 0⟩

/-- Flat balancer with an empty server list. -/
def lbEmptyF : Flat.LoadBalancer := ⟨[], 0⟩

/-- Target group for /e with an empty server list. -/
def tgEmpty : Multi.TargetGroup := ⟨"/e", []⟩

/-- Multi-group balancer whose only group has no servers. -/
def lbEmptyM : Multi.LoadBalancer := ⟨[tgEmpty]⟩

/-- Single-server group bound to /p. -/
def tgP : Multi.TargetGroup := ⟨"/p", [⟨⟨"pp", "http://pp"⟩, ""⟩]⟩

/-- Always-healthy server qq. -/
def qq : Server := ⟨⟨"qq", "http://qq"⟩, ""⟩

/-- Single-server group bound to /q with the always-healthy server `qq`. -/
def tgQ : Multi.TargetGroup := ⟨"/q", [qq]⟩

/-- Multi-group balancer with groups on the distinct paths /p and /q. -/
def lbW8 : Multi.LoadBalancer := ⟨[tgP, tgQ]⟩

/-- Health-checked server for the probe witness. -/
def s3 : Server := ⟨⟨"h3", "http://h3"⟩, "/health"⟩

theorem attemptOk_iff (r : Option Nat) : attemptOk r = true ↔ r = some 200 := by
  cases r with
  | none => simp [attemptOk]
  | some c => simp [attemptOk]

theorem tryAttempts_three (o : Nat → Option Nat) :
    tryAttempts o 0 3 = true ↔ o 0 = some 200 ∨ o 1 = some 200 ∨ o 2 = some 200 := by
  rw [← attemptOk_iff, ← attemptOk_iff, ← attemptOk_iff]
  by_cases h0 : attemptOk (o 0) <;> by_cases h1 : attemptOk (o 1) <;>
    by_cases h2 : attemptOk (o 2) <;>
    simp [tryAttempts, h0, h1, h2]

theorem tryAttempts_three_congr (o o2 : Nat → Option Nat)
    (h : ∀ i, i < 3 → o2 i = o i) : tryAttempts o2 0 3 = tryAttempts o 0 3 := by
  have e0 := h 0 (by omega)
  have e1 := h 1 (by omega)
  have e2 := h 2 (by omega)
  simp [tryAttempts, e0, e1, e2]

theorem rotation_length (servers : List Server) :
    ∀ fuel idx : Nat, idx < servers.length →
      (Flat.rotation servers idx fuel).length = fuel := by
  intro fuel
  induction fuel with
  | zero => intro idx _; rfl
  | succ fuel ih =>
    intro idx h
    have hpos : 0 < servers.length := Nat.lt_of_le_of_lt (Nat.zero_le idx) h
    simp only [Flat.rotation, List.getElem?_eq_getElem h, List.length_cons]
    rw [ih ((idx + 1) % servers.length) (Nat.mod_lt _ hpos)]

theorem rotation_getElem (servers : List Server) :
    ∀ fuel idx i : Nat, idx < servers.length →
      (Flat.rotation servers idx fuel)[i]? =
        if i < fuel then servers[(idx + i) % servers.length]? else none := by
  intro fuel
  induction fuel with
  | zero => intro idx i _; simp [Flat.rotation]
  | succ fuel ih =>
    intro idx i h
    have hpos : 0 < servers.length := Nat.lt_of_le_of_lt (Nat.zero_le idx) h
    simp only [Flat.rotation, List.getElem?_eq_getElem h]
    cases i with
    | zero =>
      simp [Nat.mod_eq_of_lt h, List.getElem?_eq_getElem h]
    | succ i =>
      have harith : ((idx + 1) % servers.length + i) % servers.length =
          (idx + (i + 1)) % servers.length := by
        rw [Nat.mod_add_mod]
        ring_nf
      rw [List.getElem?_cons_succ, ih ((idx + 1) % servers.length) i (Nat.mod_lt _ hpos),
        harith]
      simp [Nat.succ_lt_succ_iff]

theorem rotation_eq_rotate (servers : List Server) (idx : Nat)
    (h : idx < servers.length) :
    Flat.rotation servers idx servers.length = servers.rotate idx := by
  apply List.ext_getElem?
  intro i
  by_cases hi : i < servers.length
  · rw [rotation_getElem servers servers.length idx i h, if_pos hi,
      List.getElem?_rotate hi, Nat.add_comm]
  · rw [rotation_getElem servers servers.length idx i h, if_neg hi]
    exact (List.getElem?_eq_none (by rw [List.length_rotate]; omega)).symm

theorem rotation_perm (servers : List Server) (idx : Nat)
    (h : idx < servers.length) :
    List.Perm (Flat.rotation servers idx servers.length) servers := by
  rw [rotation_eq_rotate servers idx h]
  exact List.rotate_perm servers idx

theorem serveLoop_fst (healthy : Server → Bool) (servers : List Server) (p : String) :
    ∀ fuel idx : Nat, idx < servers.length →
      (Flat.serveLoop healthy servers p idx fuel).1 =
        match (Flat.rotation servers idx fuel).find? healthy with
        | some s => Response.forwarded s ("/" ++ s.URL.Host ++ p)
        | none => Response.error "No healthy backend servers available" 503 := by
  intro fuel
  induction fuel with
  | zero => intro idx _; rfl
  | succ fuel ih =>
    intro idx h
    have hpos : 0 < servers.length := Nat.lt_of_le_of_lt (Nat.zero_le idx) h
    simp only [Flat.serveLoop, Flat.rotation, List.getElem?_eq_getElem h]
    by_cases hh : healthy servers[idx]
    · rw [List.find?_cons_of_pos _ hh]
      simp [hh]
    · rw [List.find?_cons_of_neg _ (by simp [hh])]
      simp only [hh, if_false, Bool.false_eq_true]
      exact ih ((idx + 1) % servers.length) (Nat.mod_lt _ hpos)

theorem serveLoop_forwarded_path (healthy : Server → Bool) (servers : List Server)
    (p : String) :
    ∀ (fuel idx : Nat) (s : Server) (q : String),
      (Flat.serveLoop healthy servers p idx fuel).1 = Response.forwarded s q →
      q = "/" ++ s.URL.Host ++ p := by
  intro fuel
  induction fuel with
  | zero =>
    intro idx s q hq
    exact absurd hq (by simp [Flat.serveLoop])
  | succ fuel ih =>
    intro idx s q hq
    rcases hg : servers[idx]? with _ | srv
    · rw [show Flat.serveLoop healthy servers p idx (fuel + 1) =
          (Response.outOfRange, idx) by simp [Flat.serveLoop, hg]] at hq
      exact absurd hq (by simp)
    · simp only [Flat.serveLoop, hg] at hq
      by_cases hh : healthy srv
      · simp only [hh, if_true] at hq
        obtain ⟨h1, h2⟩ := Response.forwarded.inj hq
        rw [← h1, ← h2]
      · simp only [hh, if_false, Bool.false_eq_true] at hq
        exact ih ((idx + 1) % servers.length) s q hq

theorem serveGroups_no_match (healthy : Server → Bool) :
    ∀ (tgs : List Multi.TargetGroup) (p : String),
      (∀ tg ∈ tgs, p ≠ tg.URIPath) →
      Multi.serveGroups healthy tgs p =
        Response.error "No healthy backend servers available" 503 := by
  intro tgs
  induction tgs with
  | nil => intro p _; rfl
  | cons tg rest ih =>
    intro p hp
    have h1 : p ≠ tg.URIPath := hp tg (by simp)
    simp only [Multi.serveGroups, if_neg h1]
    exact ih p (fun tg2 h2 => hp tg2 (by simp [h2]))

theorem getNextServer_mem (tg : Multi.TargetGroup) (s : Server)
    (h : Multi.getNextServer tg = some s) : s ∈ tg.Servers := by
  simp only [Multi.getNextServer] at h
  split at h
  · exact absurd h (by simp)
  · rw [Option.some_inj] at h
    rw [← h]
    exact List.get_mem _ _ _

theorem getNextServer_empty (tg : Multi.TargetGroup) (h : tg.Servers = []) :
    Multi.getNextServer tg = none := by
  simp [Multi.getNextServer, h]

theorem serveGroups_eq (healthy : Server → Bool) :
    ∀ (tgs : List Multi.TargetGroup) (p : String),
      Multi.serveGroups healthy tgs p =
        match tgs.find? (fun tg => (p == tg.URIPath) && Multi.candidateHealthy healthy tg) with
        | some tg =>
          match Multi.getNextServer tg with
          | some s => Response.forwarded s ("/" ++ s.URL.Host ++ p)
          | none => Response.error "No healthy backend servers available" 503
        | none => Response.error "No healthy backend servers available" 503 := by
  intro tgs
  induction tgs with
  | nil => intro p; rfl
  | cons tg rest ih =>
    intro p
    by_cases hp : p = tg.URIPath
    · rcases hg : Multi.getNextServer tg with _ | s
      · have hc : Multi.candidateHealthy healthy tg = false := by
          simp [Multi.candidateHealthy, hg]
        rw [List.find?_cons_of_neg _ (by simp [hc])]
        simp only [Multi.serveGroups, if_pos hp, hg]
        exact ih p
      · by_cases hh : healthy s
        · have hc : Multi.candidateHealthy healthy tg = true := by
            simp [Multi.candidateHealthy, hg, hh]
          rw [List.find?_cons_of_pos _ (by simp [hp, hc])]
          simp [Multi.serveGroups, if_pos hp, hg, hh]
        · have hc : Multi.candidateHealthy healthy tg = false := by
            simp [Multi.candidateHealthy, hg, hh]
          rw [List.find?_cons_of_neg _ (by simp [hc])]
          simp only [Multi.serveGroups, if_pos hp, hg, hh, if_false, Bool.false_eq_true]
          exact ih p
    · rw [List.find?_cons_of_neg _ (by simp [hp])]
      simp only [Multi.serveGroups, if_neg hp]
      exact ih p

theorem serveGroups_forwarded (healthy : Server → Bool) :
    ∀ (tgs : List Multi.TargetGroup) (p : String) (s : Server) (q : String),
      Multi.serveGroups healthy tgs p = Response.forwarded s q →
      ∃ tg, tg ∈ tgs ∧ tg.URIPath = p ∧ Multi.getNextServer tg = some s ∧
        s ∈ tg.Servers ∧ healthy s = true ∧ q = "/" ++ s.URL.Host ++ p := by
  intro tgs
  induction tgs with
  | nil =>
    intro p s q hq
    exact absurd hq (by simp [Multi.serveGroups])
  | cons tg rest ih =>
    intro p s q hq
    by_cases hp : p = tg.URIPath
    · rcases hg : Multi.getNextServer tg with _ | srv
      · simp only [Multi.serveGroups, if_pos hp, hg] at hq
        obtain ⟨tg2, h1, h2, h3, h4, h5, h6⟩ := ih p s q hq
        exact ⟨tg2, by simp [h1], h2, h3, h4, h5, h6⟩
      · by_cases hh : healthy srv
        · simp only [Multi.serveGroups, if_pos hp, hg, hh, if_true] at hq
          obtain ⟨e1, e2⟩ := Response.forwarded.inj hq
          subst e1
          exact ⟨tg, by simp, hp.symm, hg, getNextServer_mem tg srv hg, hh, e2.symm⟩
        · simp only [Multi.serveGroups, if_pos hp, hg, hh, if_false,
            Bool.false_eq_true] at hq
          obtain ⟨tg2, h1, h2, h3, h4, h5, h6⟩ := ih p s q hq
          exact ⟨tg2, by simp [h1], h2, h3, h4, h5, h6⟩
    · simp only [Multi.serveGroups, if_neg hp] at hq
      obtain ⟨tg2, h1, h2, h3, h4, h5, h6⟩ := ih p s q hq
      exact ⟨tg2, by simp [h1], h2, h3, h4, h5, h6⟩

theorem flat_empty (net : Net) (lb : Flat.LoadBalancer) (p : String)
    (h : lb.servers = []) :
    Flat.ServeHTTP net lb p =
      (Response.error "No healthy backend servers available" 503, lb) := by
  obtain ⟨servers, idx⟩ := lb
  obtain rfl : servers = [] := h
  rfl

/-- C1: the claim that every selection returns the backend at the cursor and
advances the cursor by one modulo the pool size fails on the multi-group
shape.  For the two-server always-healthy group `tgC1`, two consecutive
requests (the balancer returned by the first is passed to the second) both
select `sB1`: `getNextServer` recomputes
`(len(Servers) % serverCount + 1) % serverCount` from scratch on every call
and persists nothing, so the two selection calls do not visit each backend
exactly once and `sA1` is never selected. -/
theorem claim_C1_code_bug :
    (Multi.ServeHTTP upNet lbC1 "/a").1 = Response.forwarded sB1 "/b1/a" ∧
    (Multi.ServeHTTP upNet (Multi.ServeHTTP upNet lbC1 "/a").2 "/a").1 =
      Response.forwarded sB1 "/b1/a" ∧
    sA1 ≠ sB1 := by
  decide

/-- C7: the rotation-cursor invariant fails on the multi-group shape: the
multi-group `LoadBalancer` has no cursor field at all, `ServeHTTP` returns
the balancer unchanged, and the next selection observes no advance (both
requests to the three-server group `tgC7` select `sB7`). -/
theorem claim_C7_code_bug :
    (Multi.ServeHTTP upNet lbC7 "/c").2 = lbC7 ∧
    (Multi.ServeHTTP upNet lbC7 "/c").1 = Response.forwarded sB7 "/b7/c" ∧
    (Multi.ServeHTTP upNet (Multi.ServeHTTP upNet lbC7 "/c").2 "/c").1 =
      (Multi.ServeHTTP upNet lbC7 "/c").1 ∧
    sA7 ≠ sB7 := by
  decide

/-- C2 (counterexample): in the multi-group shape the dispatcher does not
probe up to `len(pool.backends)` candidates.  On `downNet` the resolved
pool `tgC2` still contains the healthy backend `ghC2`, yet the dispatcher
gives up with 503 after probing only the single perpetual candidate, so it
does not give up "only after all candidates have been probed unhealthy". -/
theorem claim_C2_counterexample :
    (Multi.ServeHTTP downNet lbC2 "/a").1 =
      Response.error "No healthy backend servers available" 503 ∧
    isServerHealthy downNet ghC2 = true ∧
    ghC2 ∈ tgC2.Servers ∧
    lbC2.targetGroups = [tgC2] := by
  decide

/-- C2 (amended): in the flat shape the dispatcher examines the rotation
candidates starting at the cursor — a permutation of the pool, so every
backend is tried at most once — forwards to the first healthy one and
responds 503 exactly when none is healthy; in the multi-group shape each
route contributes exactly one rotation candidate, and the dispatcher
forwards to the candidate of the first path-matching route whose candidate
is present and healthy, responding 503 when there is none. -/
theorem claim_C2_amended :
    (∀ (net : Net) (lb : Flat.LoadBalancer) (p : String),
        lb.index < lb.servers.length →
        ((Flat.ServeHTTP net lb p).1 =
            match (Flat.rotation lb.servers lb.index lb.servers.length).find?
                (isServerHealthy net) with
            | some s => Response.forwarded s ("/" ++ s.URL.Host ++ p)
            | none => Response.error "No healthy backend servers available" 503) ∧
          List.Perm (Flat.rotation lb.servers lb.index lb.servers.length) lb.servers) ∧
    (∀ (healthy : Server → Bool) (tgs : List Multi.TargetGroup) (p : String),
        Multi.serveGroups healthy tgs p =
          match tgs.find?
              (fun tg => (p == tg.URIPath) && Multi.candidateHealthy healthy tg) with
          | some tg =>
            match Multi.getNextServer tg with
            | some s => Response.forwarded s ("/" ++ s.URL.Host ++ p)
            | none => Response.error "No healthy backend servers available" 503
          | none => Response.error "No healthy backend servers available" 503) := by
  constructor
  · intro net lb p h
    exact ⟨serveLoop_fst (isServerHealthy net) lb.servers p lb.servers.length lb.index h,
      rotation_perm lb.servers lb.index h⟩
  · exact serveGroups_eq

/-- C2 (amended) witness: the flat characterization instantiated at the
concrete balancer `lbW2` on `downNet`. -/
theorem claim_C2_amended_witness :
    lbW2.index < lbW2.servers.length ∧
    ((Flat.ServeHTTP downNet lbW2 "/x").1 =
        match (Flat.rotation lbW2.servers lbW2.index lbW2.servers.length).find?
            (isServerHealthy downNet) with
        | some s => Response.forwarded s ("/" ++ s.URL.Host ++ "/x")
        | none => Response.error "No healthy backend servers available" 503) :=
  ⟨by decide, (claim_C2_amended.1 downNet lbW2 "/x" (by decide)).1⟩

/-- C3: for a backend with a non-empty healthCheckPath, the probe returns
true iff one of the first 3 attempts against `URL.String() + healthCheckPath`
completes without a transport error with status exactly 200, returns false
iff all 3 attempts fail, and its result depends only on the outcomes of
attempts 0, 1 and 2 (at most 3 GET attempts are performed). -/
theorem claim_C3 :
    ∀ (net : Net) (s : Server), s.healthCheckPath ≠ "" →
      (isServerHealthy net s = true ↔
        ∃ i, i < 3 ∧ net (s.URL.full ++ s.healthCheckPath) i = some 200) ∧
      (isServerHealthy net s = false ↔
        ∀ i, i < 3 → net (s.URL.full ++ s.healthCheckPath) i ≠ some 200) ∧
      (∀ net2 : Net,
        (∀ i, i < 3 → net2 (s.URL.full ++ s.healthCheckPath) i =
          net (s.URL.full ++ s.healthCheckPath) i) →
        isServerHealthy net2 s = isServerHealthy net s) := by
  intro net s hs
  have key : ∀ m : Net, isServerHealthy m s =
      tryAttempts (fun retry => m (s.URL.full ++ s.healthCheckPath) retry) 0 3 := by
    intro m
    simp [isServerHealthy, hs]
  refine ⟨?_, ?_, ?_⟩
  · rw [key net, tryAttempts_three]
    constructor
    · rintro (h | h | h)
      exacts [⟨0, by omega, h⟩, ⟨1, by omega, h⟩, ⟨2, by omega, h⟩]
    · rintro ⟨i, hi, h⟩
      interval_cases i <;> tauto
  · rw [key net, Bool.eq_false_iff, Ne, tryAttempts_three]
    constructor
    · intro h i hi hx
      exact h (by interval_cases i <;> tauto)
    · intro h hx
      rcases hx with h0 | h1 | h2
      exacts [h 0 (by omega) h0, h 1 (by omega) h1, h 2 (by omega) h2]
  · intro net2 hagree
    rw [key net, key net2]
    exact tryAttempts_three_congr _ _ hagree

/-- C3 witness: the probe of `s3` on a network succeeding at attempt 1. -/
theorem claim_C3_witness :
    s3.healthCheckPath ≠ "" ∧ isServerHealthy secondTryNet s3 = true :=
  ⟨by decide, ((claim_C3 secondTryNet s3 (by decide)).1).mpr ⟨1, by omega, rfl⟩⟩

/-- C4: both failure modes produce the identical error response: in the flat
shape, when every pool member probes unhealthy, the response is the 503 with
body "No healthy backend servers available"; in the multi-group shape an
unmatched request path produces that very same response (the `http.Error`
collaborator is invoked with identical arguments in both places). -/
theorem claim_C4 :
    (∀ (net : Net) (lb : Flat.LoadBalancer) (p : String),
        lb.index < lb.servers.length ∨ lb.servers = [] →
        (∀ s ∈ lb.servers, isServerHealthy net s = false) →
        (Flat.ServeHTTP net lb p).1 =
          Response.error "No healthy backend servers available" 503) ∧
    (∀ (net : Net) (lb : Multi.LoadBalancer) (p : String),
        (∀ tg ∈ lb.targetGroups, p ≠ tg.URIPath) →
        (Multi.ServeHTTP net lb p).1 =
          Response.error "No healthy backend servers available" 503) := by
  constructor
  · intro net lb p hidx hall
    rcases hidx with h | h
    · have e : (Flat.ServeHTTP net lb p).1 =
          (Flat.serveLoop (isServerHealthy net) lb.servers p lb.index
            lb.servers.length).1 := rfl
      rw [e, serveLoop_fst (isServerHealthy net) lb.servers p lb.servers.length
        lb.index h]
      have hnone : (Flat.rotation lb.servers lb.index lb.servers.length).find?
          (isServerHealthy net) = none := by
        rw [List.find?_eq_none]
        intro x hx
        have hx2 : x ∈ lb.servers :=
          (rotation_perm lb.servers lb.index h).mem_iff.mp hx
        simp [hall x hx2]
      rw [hnone]
    · rw [flat_empty net lb p h]
  · intro net lb p hm
    exact serveGroups_no_match (isServerHealthy net) lb.targetGroups p hm

/-- C4 witness: flat exhaustion on `lbW4` under `downNet`, and an unmatched
path on the multi-group balancer `lbC7`, both yielding the identical 503. -/
theorem claim_C4_witness :
    ((lbW4.index < lbW4.servers.length ∨ lbW4.servers = []) ∧
      (∀ s ∈ lbW4.servers, isServerHealthy downNet s = false) ∧
      (Flat.ServeHTTP downNet lbW4 "/x").1 =
        Response.error "No healthy backend servers available" 503) ∧
    ((∀ tg ∈ lbC7.targetGroups, "/nope" ≠ tg.URIPath) ∧
      (Multi.ServeHTTP upNet lbC7 "/nope").1 =
        Response.error "No healthy backend servers available" 503) :=
  ⟨⟨Or.inl (by decide), by decide,
    claim_C4.1 downNet lbW4 "/x" (Or.inl (by decide)) (by decide)⟩,
   ⟨by decide, claim_C4.2 upNet lbC7 "/nope" (by decide)⟩⟩

/-- C5 (counterexample): the request is not always served from the first
match's pool.  In `lbC5` both groups are bound to /a; on `downNet` the
first group's candidate `u1` is unhealthy, and the request is forwarded to
`w1`, which is not a member of the first matching group's pool. -/
theorem claim_C5_counterexample :
    (Multi.ServeHTTP downNet lbC5 "/a").1 = Response.forwarded w1 "/w1/a" ∧
    lbC5.targetGroups[0]? = some tgU ∧
    tgU.URIPath = "/a" ∧
    ¬ w1 ∈ tgU.Servers := by
  decide

/-- C5 (amended): the route loop matches by exact string equality in
configuration order and serves the request from the first matching route
whose rotation candidate is healthy; hence any forwarded backend is the
candidate of a group whose path equals the request path (a request to /app1
is never served from a group bound to a different path such as /app2), and
a request to an unconfigured path yields the identical 503 outcome as pool
exhaustion. -/
theorem claim_C5_amended :
    (∀ (healthy : Server → Bool) (tgs : List Multi.TargetGroup) (p : String)
        (s : Server) (q : String),
        Multi.serveGroups healthy tgs p = Response.forwarded s q →
        ∃ tg, tg ∈ tgs ∧ tg.URIPath = p ∧ Multi.getNextServer tg = some s ∧
          s ∈ tg.Servers) ∧
    (∀ (net : Net) (lb : Multi.LoadBalancer) (p : String),
        (∀ tg ∈ lb.targetGroups, p ≠ tg.URIPath) →
        (Multi.ServeHTTP net lb p).1 =
          Response.error "No healthy backend servers available" 503) := by
  constructor
  · intro healthy tgs p s q hq
    obtain ⟨tg, h1, h2, h3, h4, _, _⟩ := serveGroups_forwarded healthy tgs p s q hq
    exact ⟨tg, h1, h2, h3, h4⟩
  · intro net lb p hm
    exact serveGroups_no_match (isServerHealthy net) lb.targetGroups p hm

/-- C5 (amended) witness: on `lbC5` the forwarded backend `w1` is the
candidate of a group bound to exactly /a. -/
theorem claim_C5_amended_witness :
    Multi.serveGroups (isServerHealthy downNet) lbC5.targetGroups "/a" =
      Response.forwarded w1 "/w1/a" ∧
    (∃ tg, tg ∈ lbC5.targetGroups ∧ tg.URIPath = "/a" ∧
      Multi.getNextServer tg = some w1 ∧ w1 ∈ tg.Servers) :=
  ⟨by decide, claim_C5_amended.1 (isServerHealthy downNet) lbC5.targetGroups "/a"
    w1 "/w1/a" (by decide)⟩

/-- C6: a backend with an empty healthCheckPath is reported healthy by the
probe unconditionally, for every network oracle; consequently, in the flat
shape such a backend sitting at the current cursor is forwarded to
regardless of the network, and in the multi-group shape such a backend that
is the rotation candidate of the first, path-matching group is forwarded to
regardless of the network. -/
theorem claim_C6 :
    (∀ (net : Net) (s : Server), s.healthCheckPath = "" →
      isServerHealthy net s = true) ∧
    (∀ (net : Net) (lb : Flat.LoadBalancer) (p : String)
        (h : lb.index < lb.servers.length),
        (lb.servers.get ⟨lb.index, h⟩).healthCheckPath = "" →
        (Flat.ServeHTTP net lb p).1 =
          Response.forwarded (lb.servers.get ⟨lb.index, h⟩)
            ("/" ++ (lb.servers.get ⟨lb.index, h⟩).URL.Host ++ p)) ∧
    (∀ (net : Net) (p : String) (tg : Multi.TargetGroup)
        (rest : List Multi.TargetGroup) (s : Server),
        p = tg.URIPath → Multi.getNextServer tg = some s →
        s.healthCheckPath = "" →
        Multi.serveGroups (isServerHealthy net) (tg :: rest) p =
          Response.forwarded s ("/" ++ s.URL.Host ++ p)) := by
  have hbase : ∀ (net : Net) (s : Server), s.healthCheckPath = "" →
      isServerHealthy net s = true := by
    intro net s h
    simp [isServerHealthy, h]
  refine ⟨hbase, ?_, ?_⟩
  · intro net lb p h hempty
    have hg : lb.servers.get ⟨lb.index, h⟩ = lb.servers[lb.index] :=
      List.get_eq_getElem _ _
    rw [hg] at hempty ⊢
    have e : (Flat.ServeHTTP net lb p).1 =
        (Flat.serveLoop (isServerHealthy net) lb.servers p lb.index
          lb.servers.length).1 := rfl
    rw [e, serveLoop_fst (isServerHealthy net) lb.servers p lb.servers.length
      lb.index h]
    obtain ⟨fuel, hf⟩ : ∃ f, lb.servers.length = f + 1 :=
      ⟨lb.servers.length - 1, by omega⟩
    rw [hf]
    simp only [Flat.rotation, List.getElem?_eq_getElem h]
    rw [List.find?_cons_of_pos _ (hbase net _ hempty)]
  · intro net p tg rest s hp hg hempty
    simp only [Multi.serveGroups, if_pos hp, hg, hbase net s hempty, if_true]

/-- C6 witness: the cursor backend of `lbW9` has an empty health-check path
and is forwarded to even though the whole network is down. -/
theorem claim_C6_witness :
    (Flat.ServeHTTP downNet lbW9 "/z").1 =
      Response.forwarded (lbW9.servers.get ⟨lbW9.index, by decide⟩)
        ("/" ++ (lbW9.servers.get ⟨lbW9.index, by decide⟩).URL.Host ++ "/z") :=
  claim_C6.2.1 downNet lbW9 "/z" (by decide) (by decide)

/-- C8 (counterexample): with duplicate-path groups the forwarded backend
need not belong to the pool of the first route whose path equals the
request path: in `lbC8` the first /dup group's candidate `d2` is unhealthy
on `downNet` and the request is forwarded to `e1` from the second /dup
group. -/
theorem claim_C8_counterexample :
    (Multi.ServeHTTP downNet lbC8 "/dup").1 = Response.forwarded e1 "/e1/dup" ∧
    lbC8.targetGroups[0]? = some tgD ∧
    tgD.URIPath = "/dup" ∧
    ¬ e1 ∈ tgD.Servers := by
  decide

/-- C8 (amended): the forwarded backend is always the rotation candidate of
the first route whose path matches and whose candidate is healthy; when the
configured route paths are pairwise distinct it is the candidate of the
first (unique) route whose path equals the request path, so at most one
route's pool services the request. -/
theorem claim_C8_amended :
    ∀ (healthy : Server → Bool) (tgs : List Multi.TargetGroup) (p : String)
      (s : Server) (q : String),
      List.Pairwise (fun a b => a.URIPath ≠ b.URIPath) tgs →
      Multi.serveGroups healthy tgs p = Response.forwarded s q →
      ∃ tg, tgs.find? (fun tg2 => p == tg2.URIPath) = some tg ∧
        Multi.getNextServer tg = some s ∧ s ∈ tg.Servers := by
  intro healthy tgs
  induction tgs with
  | nil =>
    intro p s q _ hq
    exact absurd hq (by simp [Multi.serveGroups])
  | cons tg rest ih =>
    intro p s q hpw hq
    obtain ⟨hhead, htail⟩ := List.pairwise_cons.mp hpw
    by_cases hp : p = tg.URIPath
    · rw [List.find?_cons_of_pos _ (by simp [hp])]
      have hrest : Multi.serveGroups healthy rest p =
          Response.error "No healthy backend servers available" 503 :=
        serveGroups_no_match healthy rest p
          (fun tg2 h2 => by rw [hp]; exact hhead tg2 h2)
      rcases hg : Multi.getNextServer tg with _ | srv
      · simp only [Multi.serveGroups, if_pos hp, hg, hrest] at hq
        exact absurd hq (by simp)
      · by_cases hh : healthy srv
        · simp only [Multi.serveGroups, if_pos hp, hg, hh, if_true] at hq
          obtain ⟨e1, _⟩ := Response.forwarded.inj hq
          subst e1
          exact ⟨tg, rfl, hg, getNextServer_mem tg srv hg⟩
        · simp only [Multi.serveGroups, if_pos hp, hg, hh, if_false,
            Bool.false_eq_true, hrest] at hq
          exact absurd hq (by simp)
    · rw [List.find?_cons_of_neg _ (by simp [hp])]
      simp only [Multi.serveGroups, if_neg hp] at hq
      exact ih p s q htail hq

/-- C8 (amended) witness: on the distinct-path balancer `lbW8` the request
to /q is forwarded to `qq`, the candidate of the unique matching route. -/
theorem claim_C8_amended_witness :
    List.Pairwise (fun a b => a.URIPath ≠ b.URIPath) lbW8.targetGroups ∧
    (∃ tg, lbW8.targetGroups.find? (fun tg2 => "/q" == tg2.URIPath) = some tg ∧
      Multi.getNextServer tg = some qq ∧ qq ∈ tg.Servers) :=
  ⟨by decide, claim_C8_amended (isServerHealthy upNet) lbW8.targetGroups "/q"
    qq "/qq/q" (by decide) (by decide)⟩

/-- C9: whenever a request is forwarded, the rewritten path handed to the
proxy collaborator is exactly "/" ++ the chosen backend's host segment ++
the original request path, in both shapes. -/
theorem claim_C9 :
    (∀ (net : Net) (lb : Flat.LoadBalancer) (p : String) (s : Server) (q : String),
        (Flat.ServeHTTP net lb p).1 = Response.forwarded s q →
        q = "/" ++ s.URL.Host ++ p) ∧
    (∀ (net : Net) (lb : Multi.LoadBalancer) (p : String) (s : Server) (q : String),
        (Multi.ServeHTTP net lb p).1 = Response.forwarded s q →
        q = "/" ++ s.URL.Host ++ p) := by
  constructor
  · intro net lb p s q hq
    exact serveLoop_forwarded_path (isServerHealthy net) lb.servers p
      lb.servers.length lb.index s q hq
  · intro net lb p s q hq
    obtain ⟨_, _, _, _, _, _, h6⟩ :=
      serveGroups_forwarded (isServerHealthy net) lb.targetGroups p s q hq
    exact h6

/-- C9 witness: the forwarding of `sW9` (host w9) for request path /x
rewrites the path to /w9/x. -/
theorem claim_C9_witness :
    (Flat.ServeHTTP upNet lbW9 "/x").1 = Response.forwarded sW9 "/w9/x" ∧
    "/w9/x" = "/" ++ sW9.URL.Host ++ "/x" :=
  ⟨by decide, claim_C9.1 upNet lbW9 "/x" sW9 "/w9/x" (by decide)⟩

/-- C10: an empty backend list never produces a runtime failure: in the flat
shape the dispatch loop runs zero iterations and the response is the 503
error with the balancer unchanged (no out-of-range access, no modulo
evaluation); in the multi-group shape `getNextServer` returns none for an
empty group and a balancer whose groups are all empty answers the same
503. -/
theorem claim_C10 :
    (∀ (net : Net) (lb : Flat.LoadBalancer) (p : String), lb.servers = [] →
        Flat.ServeHTTP net lb p =
          (Response.error "No healthy backend servers available" 503, lb)) ∧
    (∀ tg : Multi.TargetGroup, tg.Servers = [] → Multi.getNextServer tg = none) ∧
    (∀ (net : Net) (lb : Multi.LoadBalancer) (p : String),
        (∀ tg ∈ lb.targetGroups, tg.Servers = []) →
        (Multi.ServeHTTP net lb p).1 =
          Response.error "No healthy backend servers available" 503) := by
  refine ⟨flat_empty, getNextServer_empty, ?_⟩
  intro net lb p hall
  have key : ∀ tgs : List Multi.TargetGroup, (∀ tg ∈ tgs, tg.Servers = []) →
      Multi.serveGroups (isServerHealthy net) tgs p =
        Response.error "No healthy backend servers available" 503 := by
    intro tgs
    induction tgs with
    | nil => intro _; rfl
    | cons tg rest ih =>
      intro h2
      by_cases hp : p = tg.URIPath
      · simp only [Multi.serveGroups, if_pos hp,
          getNextServer_empty tg (h2 tg (by simp))]
        exact ih (fun tg2 hm => h2 tg2 (by simp [hm]))
      · simp only [Multi.serveGroups, if_neg hp]
        exact ih (fun tg2 hm => h2 tg2 (by simp [hm]))
  exact key lb.targetGroups hall

/-- C10 witness: the empty flat balancer and the empty-group multi balancer
both answer the 503 error without any runtime failure. -/
theorem claim_C10_witness :
    lbEmptyF.servers = [] ∧
    Flat.ServeHTTP downNet lbEmptyF "/x" =
      (Response.error "No healthy backend servers available" 503, lbEmptyF) ∧
    tgEmpty.Servers = [] ∧ Multi.getNextServer tgEmpty = none ∧
    (Multi.ServeHTTP downNet lbEmptyM "/e").1 =
      Response.error "No healthy backend servers available" 503 :=
  ⟨rfl, claim_C10.1 downNet lbEmptyF "/x" rfl, rfl, claim_C10.2.1 tgEmpty rfl,
   claim_C10.2.2 downNet lbEmptyM "/e" (by decide)⟩
